import Mathlib

/-!
Verification of the `shaderc_acp` build helper.

The development shallowly embeds the two source files of the repository:

* `src/lib.rs` — the `CompilationRun` configuration object, its `run`
  method (directory traversal, extension-based classification, delegation
  to the external `shaderc` compiler, error aggregation and end-of-run
  reporting) and the `shader_path_to_file_name` output-name derivation;
* `shaderc_acp_macros/src/lib.rs` — the `include_shader!` consumer macro
  (modelled as the function its expansion computes).

External collaborators (the filesystem, the `walkdir` traversal and the
`shaderc` compiler) are modelled as an explicit `World` record of oracles,
and each directory entry carries the outcomes of the fallible filesystem
operations `run` would perform on it.  Rust panics (`unwrap`, `expect`,
`panic!` in the original) are modelled with `Except`.
-/

namespace ShadercAcp

/-- The components of a Rust `std::path::Path`, as produced by
`Path::components()`.  `drive` models `Component::Prefix` (Windows path
prefixes such as drive letters); the remaining constructors correspond to
`RootDir`, `CurDir`, `ParentDir` and `Normal`. -/
inductive Component
  | drive (s : String)
  | rootDir
  | curDir
  | parentDir
  | normal (s : String)
deriving DecidableEq, Repr

/-- The `filter_map` in `shader_path_to_file_name`: keep only the
`Component::Normal(name)` components, as strings (`to_string_lossy`). -/
def normal_components (path : List Component) : List String :=
  path.filterMap (fun c =>
    match c with
    | Component.normal s => some s
    | _ => none)

/-- The separator stream of `shader_path_to_file_name`: the Rust code zips
the component names against `iter::successors(Some(0), |_| Some(1))`
mapped through `{0 => "", _ => "__"}`, i.e. the stream whose state is `0`
for the first name and `1` for every later one.  `sep_join state names`
renders that fused zip-and-concatenate: it emits, for each name, the
separator selected by the current stream state followed by the name, the
state becoming `1` after the first element. -/
def sep_join (state : Nat) : List String → String
  | [] => ""
  | name :: rest =>
      (match state with
       | 0 => ""
       | _ + 1 => "__") ++ name ++ sep_join 1 rest

/-- `shader_path_to_file_name` from `src/lib.rs`: keep the normal
components of the path, join them with `__` between consecutive
components (nothing before the first) and append `.spirv`. -/
def shader_path_to_file_name (path : List Component) : String :=
  sep_join 0 (normal_components path) ++ ".spirv"

/-- The filename derivation as §4.3 of the design document words it:
take only the normal path components, emit the first bare, every
subsequent component prefixed with the literal `__`, and append the
literal `.spirv` suffix. -/
def spec_output_name (path : List Component) : String :=
  let comps := path.filterMap (fun c =>
    match c with
    | Component.normal s => some s
    | _ => none)
  (match comps with
   | [] => ""
   | first :: rest => first ++ String.join (rest.map (fun c => "__" ++ c))) ++ ".spirv"

theorem join_cons_eq (a : String) (l : List String) :
    String.join (a :: l) = a ++ String.join l := by
  apply String.ext
  rw [String.data_append, String.join_eq, String.join_eq]
  simp

/-- `sep_join` with state `1` prefixes every name with `__`. -/
theorem sep_join_one (l : List String) :
    sep_join 1 l = String.join (l.map (fun c => "__" ++ c)) := by
  induction l with
  | nil => rfl
  | cons a t ih =>
      rw [sep_join, ih, List.map_cons, join_cons_eq, String.append_assoc]

/-- The code's successors-based join agrees with the spec's
first-bare/rest-prefixed description. -/
theorem shader_path_to_file_name_eq_spec (path : List Component) :
    shader_path_to_file_name path = spec_output_name path := by
  unfold shader_path_to_file_name spec_output_name normal_components
  cases path.filterMap (fun c =>
    match c with
    | Component.normal s => some s
    | _ => none) with
  | nil => rfl
  | cons first rest =>
      show sep_join 0 (first :: rest) ++ ".spirv" = _
      rw [sep_join, sep_join_one]
      simp [String.empty_append]

/-! ### Injectivity of the derived filename on underscore-free components -/

/-- Character-level rendering of `sep_join 1`: every name preceded by the
two separator characters. -/
def glue : List (List Char) → List Char
  | [] => []
  | n :: rest => '_' :: '_' :: (n ++ glue rest)

theorem sep_join_one_data (l : List String) :
    (sep_join 1 l).data = glue (l.map String.data) := by
  induction l with
  | nil => rfl
  | cons a t ih =>
      rw [sep_join, String.data_append, String.data_append, ih]
      rfl

/-- Character-level rendering of the whole output filename. -/
def out_chars : List (List Char) → List Char
  | [] => ".spirv".data
  | n :: rest => n ++ glue rest ++ ".spirv".data

theorem shader_path_to_file_name_data (path : List Component) :
    (shader_path_to_file_name path).data
      = out_chars ((normal_components path).map String.data) := by
  unfold shader_path_to_file_name
  cases h : normal_components path with
  | nil => rfl
  | cons first rest =>
      rw [String.data_append]
      show (sep_join 0 (first :: rest)).data ++ _ = _
      rw [sep_join, String.empty_append, String.data_append, sep_join_one_data]
      simp [out_chars, glue]

theorem glue_shape (l : List (List Char)) :
    glue l = [] ∨ ∃ t, glue l = '_' :: t := by
  cases l with
  | nil => exact Or.inl rfl
  | cons n rest => exact Or.inr ⟨'_' :: (n ++ glue rest), rfl⟩

/-- Splitting lemma: an underscore-free block followed by a tail that is
empty or starts with `'_'` determines both parts. -/
theorem underscore_split (a : List Char) :
    ∀ (b u v : List Char), '_' ∉ a → '_' ∉ b →
      (u = [] ∨ ∃ t, u = '_' :: t) → (v = [] ∨ ∃ t, v = '_' :: t) →
      a ++ u = b ++ v → a = b ∧ u = v := by
  induction a with
  | nil =>
      intro b u v _ hb hu _ h
      cases b with
      | nil => exact ⟨rfl, h⟩
      | cons c b' =>
          exfalso
          rcases hu with h0 | ⟨t, ht⟩
          · subst h0
            exact (List.cons_ne_nil c (b' ++ v)) h.symm
          · subst ht
            have : c = '_' := (List.cons.injEq _ _ _ _ ▸ h).1.symm
            exact hb (this ▸ List.mem_cons_self c b')
  | cons c a' ih =>
      intro b u v ha hb hu hv h
      cases b with
      | nil =>
          exfalso
          rcases hv with h0 | ⟨t, ht⟩
          · subst h0
            exact (List.cons_ne_nil c (a' ++ u)) h
          · subst ht
            have : c = '_' := (List.cons.injEq _ _ _ _ ▸ h).1
            exact ha (this ▸ List.mem_cons_self c a')
      | cons d b' =>
          have h1 : c = d := (List.cons.injEq _ _ _ _ ▸ h).1
          have h2 : a' ++ u = b' ++ v := (List.cons.injEq _ _ _ _ ▸ h).2
          have := ih b' u v (fun hm => ha (List.mem_cons_of_mem c hm))
            (fun hm => hb (List.mem_cons_of_mem d hm)) hu hv h2
          exact ⟨by rw [h1, this.1], this.2⟩

/-- `glue` is injective on lists of nonempty underscore-free blocks. -/
theorem glue_injective (xs : List (List Char)) :
    ∀ ys : List (List Char),
      (∀ x ∈ xs, x ≠ [] ∧ '_' ∉ x) → (∀ y ∈ ys, y ≠ [] ∧ '_' ∉ y) →
      glue xs = glue ys → xs = ys := by
  induction xs with
  | nil =>
      intro ys _ _ h
      cases ys with
      | nil => rfl
      | cons y ys' => exact absurd h (by simp [glue])
  | cons x xs' ih =>
      intro ys hx hy h
      cases ys with
      | nil => exact absurd h (by simp [glue])
      | cons y ys' =>
          rw [glue, glue] at h
          have h2 : x ++ glue xs' = y ++ glue ys' := by
            have := List.cons.injEq '_' ('_' :: (x ++ glue xs')) '_' ('_' :: (y ++ glue ys')) ▸ h
            have := this.2
            exact (List.cons.injEq _ _ _ _ ▸ this).2
          have hsplit := underscore_split x y (glue xs') (glue ys')
            (hx x (List.mem_cons_self x xs')).2 (hy y (List.mem_cons_self y ys')).2
            (glue_shape xs') (glue_shape ys') h2
          have htail := ih ys' (fun a ha => hx a (List.mem_cons_of_mem x ha))
            (fun a ha => hy a (List.mem_cons_of_mem y ha)) hsplit.2
          rw [hsplit.1, htail]

/-- `out_chars` is injective on lists of nonempty underscore-free blocks. -/
theorem out_chars_injective (xs ys : List (List Char))
    (hx : ∀ x ∈ xs, x ≠ [] ∧ '_' ∉ x) (hy : ∀ y ∈ ys, y ≠ [] ∧ '_' ∉ y)
    (h : out_chars xs = out_chars ys) : xs = ys := by
  cases xs with
  | nil =>
      cases ys with
      | nil => rfl
      | cons y ys' =>
          exfalso
          rw [out_chars, out_chars] at h
          have hlen := congrArg List.length h
          simp [List.length_append] at hlen
          have hy0 : y.length = 0 := by omega
          exact (hy y (List.mem_cons_self y ys')).1 (List.eq_nil_of_length_eq_zero hy0)
  | cons x xs' =>
      cases ys with
      | nil =>
          exfalso
          rw [out_chars, out_chars] at h
          have hlen := congrArg List.length h
          simp [List.length_append] at hlen
          have hx0 : x.length = 0 := by omega
          exact (hx x (List.mem_cons_self x xs')).1 (List.eq_nil_of_length_eq_zero hx0)
      | cons y ys' =>
          rw [out_chars, out_chars] at h
          have h2 : x ++ glue xs' = y ++ glue ys' := List.append_cancel_right h
          have hsplit := underscore_split x y (glue xs') (glue ys')
            (hx x (List.mem_cons_self x xs')).2 (hy y (List.mem_cons_self y ys')).2
            (glue_shape xs') (glue_shape ys') h2
          have htail := glue_injective xs' ys'
            (fun a ha => hx a (List.mem_cons_of_mem x ha))
            (fun a ha => hy a (List.mem_cons_of_mem y ha)) hsplit.2
          rw [hsplit.1, htail]

/-- Injectivity of the filename derivation on paths whose normal
components are nonempty and contain no underscore. -/
theorem shader_path_to_file_name_injective (p q : List Component)
    (hp : ∀ s ∈ normal_components p, s ≠ "" ∧ '_' ∉ s.data)
    (hq : ∀ s ∈ normal_components q, s ≠ "" ∧ '_' ∉ s.data)
    (h : shader_path_to_file_name p = shader_path_to_file_name q) :
    normal_components p = normal_components q := by
  have hdata := congrArg String.data h
  rw [shader_path_to_file_name_data, shader_path_to_file_name_data] at hdata
  have good : ∀ (l : List Component)
      (_ : ∀ s ∈ normal_components l, s ≠ "" ∧ '_' ∉ s.data),
      ∀ x ∈ (normal_components l).map String.data, x ≠ [] ∧ '_' ∉ x := by
    intro l hl x hx
    rcases List.mem_map.mp hx with ⟨s, hs, rfl⟩
    refine ⟨fun hnil => (hl s hs).1 (String.ext hnil), (hl s hs).2⟩
  have hmaps := out_chars_injective _ _ (good p hp) (good q hq) hdata
  exact List.map_injective_iff.mpr (fun a b hab => String.ext hab) hmaps

/-! ### The `CompilationRun` execution model -/

/-- `shaderc::ShaderKind`, restricted to the variants the extension table
uses. -/
inductive ShaderKind
  | Vertex
  | Fragment
  | Geometry
  | Compute
  | TessControl
  | TessEvaluation
  | RayGeneration
  | Intersection
  | AnyHit
  | ClosestHit
  | Miss
  | Callable
  | Mesh
  | Task
  | InferFromSource
deriving DecidableEq, Repr

/-- The extension match of `CompilationRun::run` (`src/lib.rs`, the
`match file_ext.as_ref()` table): `some kind` for a supported extension,
`none` (skip) otherwise. -/
def shader_kind_of_ext (ext : String) : Option ShaderKind :=
  match ext with
  | "vert" => some ShaderKind.Vertex
  | "vs" => some ShaderKind.Vertex
  | "frag" => some ShaderKind.Fragment
  | "fs" => some ShaderKind.Fragment
  | "gs" => some ShaderKind.Geometry
  | "geom" => some ShaderKind.Geometry
  | "comp" => some ShaderKind.Compute
  | "tesc" => some ShaderKind.TessControl
  | "tese" => some ShaderKind.TessEvaluation
  | "rgen" => some ShaderKind.RayGeneration
  | "rint" => some ShaderKind.Intersection
  | "rahit" => some ShaderKind.AnyHit
  | "rchit" => some ShaderKind.ClosestHit
  | "rmiss" => some ShaderKind.Miss
  | "rcall" => some ShaderKind.Callable
  | "mesh" => some ShaderKind.Mesh
  | "task" => some ShaderKind.Task
  | "glsl" => some ShaderKind.InferFromSource
  | _ => none

/-- The extensions the table supports, in source order. -/
def supported_exts : List String :=
  ["vert", "vs", "frag", "fs", "gs", "geom", "comp", "tesc", "tese",
   "rgen", "rint", "rahit", "rchit", "rmiss", "rcall", "mesh", "task", "glsl"]

/-- A rendering of `Path::display()` for a component list: `/` between
consecutive components, the root marker rendered as a bare `/`. -/
def Component.render : Component → String
  | Component.drive s => s
  | Component.rootDir => "/"
  | Component.curDir => "."
  | Component.parentDir => ".."
  | Component.normal s => s

/-- `entry.path().display().to_string()`. -/
def display : List Component → String
  | [] => ""
  | [c] => c.render
  | Component.rootDir :: rest => "/" ++ display rest
  | c :: rest => c.render ++ "/" ++ display rest

/-- The kind of a `std::io::Error`: the run only inspects whether it is
`ErrorKind::AlreadyExists`. -/
inductive IoErrorKind
  | alreadyExists
  | other (k : String)
deriving DecidableEq, Repr

/-- A `std::io::Error` as the run observes it: its kind and its `Display`
rendering.  Note it carries no path — `fs::read_to_string` and friends do
not attach the path to the error they return. -/
structure IoError where
  kind : IoErrorKind
  msg : String
deriving DecidableEq, Repr

/-- `ShaderCompileFail` from `src/lib.rs`: the failing path plus the
compiler's diagnostic (`shaderc::Error`, modelled by its rendering). -/
structure ShaderCompileFail where
  path : List Component
  error : String
deriving DecidableEq, Repr

/-- `CompilationRunError` from `src/lib.rs`. -/
inductive CompilationRunError
  | Io (err : IoError)
  | CompileFail (fail : ShaderCompileFail)
deriving DecidableEq, Repr

/-- One invocation of `Compiler::compile_into_spirv`, recording exactly
the arguments passed: source text, shader kind, virtual input filename,
entry-point name, and the additional-options argument (`None` in the
source, hence `Option Unit`). -/
structure CompileCall where
  source_text : String
  shader_kind : ShaderKind
  input_file_name : String
  entry_point_name : String
  additional_options : Option Unit
deriving DecidableEq, Repr

instance {ε α : Type} [DecidableEq ε] [DecidableEq α] : DecidableEq (Except ε α) := fun x y =>
  match x, y with
  | Except.ok a, Except.ok b =>
      if h : a = b then isTrue (by rw [h])
      else isFalse (by intro hh; cases hh; exact h rfl)
  | Except.ok _, Except.error _ => isFalse (by intro h; cases h)
  | Except.error _, Except.ok _ => isFalse (by intro h; cases h)
  | Except.error a, Except.error b =>
      if h : a = b then isTrue (by rw [h])
      else isFalse (by intro hh; cases hh; exact h rfl)

/-- A directory entry yielded by the traversal, carrying the outcomes of
the fallible filesystem operations `run` would perform on it: the
`fs::read_to_string` result, the `fs::create_dir` result for the output
subdirectory, and the `fs::write` result for the artifact. -/
structure Entry where
  path : List Component
  is_dir : Bool
  ext : Option String
  read_result : Except IoError String
  create_dir_result : Except IoError Unit
  write_result : Except IoError Unit
deriving DecidableEq, Repr

/-- An item of the `WalkDir` iterator: either a directory entry or a
traversal error (whose `Display` rendering becomes the panic message of
the `entry.unwrap()` on line 65). -/
inductive WalkItem
  | ok (e : Entry)
  | err (msg : String)
deriving DecidableEq, Repr

/-- The external collaborators of a run: whether `Compiler::new`
succeeds, the `OUT_DIR` environment variable, the `walkdir` traversal
(directory, `min_depth`, `max_depth` ↦ items) and the external compiler
(arguments ↦ binary artifact bytes or diagnostic). -/
structure World where
  compiler_ok : Bool
  out_dir : Option String
  walkdir : List Component → Nat → Nat → List WalkItem
  compile : CompileCall → Except String (List Nat)

/-- The observable state a run accumulates: the aggregated error set, the
compiler invocations made, and the artifact files written (name, bytes),
each in encounter order. -/
structure RunState where
  errors : List CompilationRunError
  calls : List CompileCall
  writes : List (String × List Nat)
deriving DecidableEq, Repr

def RunState.init : RunState := ⟨[], [], []⟩

/-- The body of the entry loop of `CompilationRun::run` (`src/lib.rs`
lines 66–142) for one entry.  `Except.error (st, msg)` models a Rust
panic escaping mid-run (here: the `env::var("OUT_DIR").unwrap()` on line
110); `Except.ok` models `continue`-ing to the next entry, with the state
as updated. -/
def process_entry (w : World) (st : RunState) (e : Entry) :
    Except (RunState × String) RunState :=
  if e.is_dir then Except.ok st
  else
    match e.ext with
    | none => Except.ok st
    | some file_ext =>
      match shader_kind_of_ext file_ext with
      | none => Except.ok st
      | some shader_kind =>
        match e.read_result with
        | Except.error err =>
            Except.ok { st with errors := st.errors ++ [CompilationRunError.Io err] }
        | Except.ok source_text =>
          let call : CompileCall :=
            ⟨source_text, shader_kind, display e.path, "main", none⟩
          let st := { st with calls := st.calls ++ [call] }
          match w.compile call with
          | Except.ok artifact =>
            match w.out_dir with
            | none => Except.error (st, "environment variable OUT_DIR not set")
            | some _ =>
              let write_step : Except (RunState × String) RunState :=
                match e.write_result with
                | Except.ok _ =>
                    Except.ok { st with
                      writes := st.writes ++ [(shader_path_to_file_name e.path, artifact)] }
                | Except.error err =>
                    Except.ok { st with errors := st.errors ++ [CompilationRunError.Io err] }
              match e.create_dir_result with
              | Except.ok _ => write_step
              | Except.error err =>
                match err.kind with
                | IoErrorKind.alreadyExists => write_step
                | IoErrorKind.other _ =>
                    Except.ok { st with errors := st.errors ++ [CompilationRunError.Io err] }
          | Except.error err =>
              Except.ok { st with
                errors := st.errors ++ [CompilationRunError.CompileFail ⟨e.path, err⟩] }

/-- The entry loop over one directory's walk items.  A `WalkItem.err`
panics at once (`entry.unwrap()`), carrying the state reached so far. -/
def process_items (w : World) (st : RunState) :
    List WalkItem → Except (RunState × String) RunState
  | [] => Except.ok st
  | WalkItem.err msg :: _ => Except.error (st, msg)
  | WalkItem.ok e :: rest =>
    match process_entry w st e with
    | Except.error p => Except.error p
    | Except.ok st' => process_items w st' rest

/-- The outer loop over the configured directories (`for dir in
self.directories`), each walked with `min_depth 1` and the configured
`max_depth`. -/
def process_dirs (w : World) (max_depth : Nat) (st : RunState) :
    List (List Component) → Except (RunState × String) RunState
  | [] => Except.ok st
  | d :: rest =>
    match process_items w st (w.walkdir d 1 max_depth) with
    | Except.error p => Except.error p
    | Except.ok st' => process_dirs w max_depth st' rest

/-- How the end-of-run report renders one recorded failure
(`src/lib.rs` lines 148–159). -/
def render_error : CompilationRunError → String
  | CompilationRunError.Io err => "IO error: " ++ err.msg
  | CompilationRunError.CompileFail f =>
      "Error compiling shader at \"" ++ display f.path ++ "\": " ++ f.error

/-- The message of the final `panic!` (`src/lib.rs` lines 162–165). -/
def final_panic_msg (n : Nat) : String :=
  toString n ++ " errors were encountered while attempting to compile shaders."

/-- The observable outcome of a run: `panicked st printed msg` is an
abnormal termination (a Rust panic) after printing `printed` to the
diagnostic stream, with the state reached; `completed st printed` is a
normal return. -/
inductive RunOutcome
  | panicked (st : RunState) (printed : List String) (msg : String)
  | completed (st : RunState) (printed : List String)
deriving DecidableEq, Repr

/-- The `CompilationRun` configuration: root directories and maximum
traversal depth. -/
structure CompilationRun where
  directories : List (List Component)
  max_depth : Nat
deriving DecidableEq, Repr

/-- `CompilationRun::new`. -/
def CompilationRun.new (dir : List Component) : CompilationRun :=
  ⟨[dir], 0⟩

/-- `CompilationRun::with_dir`. -/
def CompilationRun.with_dir (s : CompilationRun) (dir : List Component) :
    CompilationRun :=
  ⟨s.directories ++ [dir], s.max_depth⟩

/-- `CompilationRun::max_depth` (the setter; named apart from the field). -/
def CompilationRun.set_max_depth (s : CompilationRun) (depth : Nat) :
    CompilationRun :=
  { s with max_depth := depth }

/-- `CompilationRun::run`: initialize the compiler (an `expect`, i.e. a
panic when it fails), process every directory, then report: with a
non-empty error set print one line per recorded failure and panic with
the error count; with an empty error set return normally having printed
nothing. -/
def CompilationRun.run (s : CompilationRun) (w : World) : RunOutcome :=
  if w.compiler_ok then
    match process_dirs w s.max_depth RunState.init s.directories with
    | Except.error (st, msg) => RunOutcome.panicked st [] msg
    | Except.ok st =>
      if st.errors.isEmpty then RunOutcome.completed st []
      else
        RunOutcome.panicked st (st.errors.map render_error)
          (final_panic_msg st.errors.length)
  else
    RunOutcome.panicked RunState.init [] "Could not initialize shader compiler"

/-! ### The `include_shader!` consumer macro -/

/-- `bytemuck::cast_slice::<u8, u32>` on an exactly fitting byte slice:
the bytes regrouped into consecutive 4-byte words (each word kept as its
byte group; the numeric reading of a group is the target's memory
layout).  Leftover bytes (impossible after the length check) are
dropped. -/
def chunk4 : List Nat → List (List Nat)
  | b0 :: b1 :: b2 :: b3 :: rest => [b0, b1, b2, b3] :: chunk4 rest
  | _ => []

/-- The expansion of `include_shader!` from
`shaderc_acp_macros/src/lib.rs`, as a function of the shader identifier
and the bytes `include_bytes!` found in `OUT_DIR/SPIR-V/<shader>.spirv`:
panic (`Except.error`) when the byte count is not divisible by four
(`size_of::<u32>()`), otherwise the bytes cast to 4-byte words. -/
def include_shader (shader : String) (shader_bytes : List Nat) :
    Except String (List (List Nat)) :=
  if shader_bytes.length % 4 ≠ 0 then
    Except.error ("Shader " ++ shader
      ++ " contains a number of bytes which is not divisible by four.")
  else
    Except.ok (chunk4 shader_bytes)

/-- What the consuming program's BUILD of an `include_shader!` use does,
phase-separated from the expansion's evaluation: `env!("OUT_DIR")` and
`include_bytes!` are expanded at the consumer's build time, reading the
artifact file `OUT_DIR/SPIR-V/<shader>.spirv` (`files` maps names under
that directory to contents; a missing file is the only build-time
failure).  The length check and the cast are merely compiled into the
expansion as ordinary runtime code (`bytemuck::cast_slice` is not
`const`), so the build inspects nothing about the byte count: it
succeeds with whatever bytes the file holds, and `include_shader`
describes what evaluating the expansion then does at the consumer's run
time. -/
def include_shader_build (files : String → Option (List Nat)) (shader : String) :
    Except String (List Nat) :=
  match files (shader ++ ".spirv") with
  | none => Except.error ("could not find " ++ shader ++ ".spirv in OUT_DIR/SPIR-V")
  | some shader_bytes => Except.ok shader_bytes

theorem chunk4_spec (n : Nat) :
    ∀ bs : List Nat, bs.length = 4 * n →
      (chunk4 bs).flatten = bs ∧ ∀ c ∈ chunk4 bs, c.length = 4 := by
  induction n with
  | zero =>
      intro bs h
      have : bs = [] := List.eq_nil_of_length_eq_zero (by omega)
      subst this
      exact ⟨rfl, by intro c hc; cases hc⟩
  | succ m ih =>
      intro bs h
      match bs with
      | [] => simp at h
      | [b0] => simp at h; omega
      | [b0, b1] => simp at h; omega
      | [b0, b1, b2] => simp at h; omega
      | b0 :: b1 :: b2 :: b3 :: rest =>
          have hrest : rest.length = 4 * m := by
            simp [List.length_cons] at h
            omega
          have := ih rest hrest
          refine ⟨?_, ?_⟩
          · show ([b0, b1, b2, b3] :: chunk4 rest).flatten = _
            rw [List.flatten_cons, this.1]
            rfl
          · intro c hc
            rcases List.mem_cons.mp hc with hc | hc
            · rw [hc]; rfl
            · exact this.2 c hc

/-! ### Control-flow lemmas about the entry loop -/

/-- With `OUT_DIR` set, processing a single entry never escapes by a
panic: every branch of the loop body ends in `continue`. -/
theorem process_entry_ok (w : World) (st : RunState) (e : Entry)
    (o : String) (h : w.out_dir = some o) :
    ∃ st', process_entry w st e = Except.ok st' := by
  unfold process_entry
  dsimp only
  repeat' split
  all_goals first
    | exact ⟨_, rfl⟩
    | simp_all

/-- With `OUT_DIR` set and an error-free traversal, the entry loop over a
directory's items runs to completion. -/
theorem process_items_ok (w : World) (o : String) (h : w.out_dir = some o) :
    ∀ (items : List WalkItem) (st : RunState),
      (∀ it ∈ items, ∃ e, it = WalkItem.ok e) →
      ∃ st', process_items w st items = Except.ok st' := by
  intro items
  induction items with
  | nil => intro st _; exact ⟨st, rfl⟩
  | cons it rest ih =>
      intro st hall
      rcases hall it (List.mem_cons_self it rest) with ⟨e, rfl⟩
      rcases process_entry_ok w st e o h with ⟨st1, h1⟩
      rcases ih st1 (fun x hx => hall x (List.mem_cons_of_mem _ hx)) with ⟨st2, h2⟩
      exact ⟨st2, by rw [process_items, h1]; exact h2⟩

/-- With `OUT_DIR` set and an error-free traversal, the whole run's
directory loop completes, attempting every entry. -/
theorem process_dirs_ok (w : World) (o : String) (h : w.out_dir = some o)
    (max_depth : Nat)
    (hw : ∀ d min max, ∀ it ∈ w.walkdir d min max, ∃ e, it = WalkItem.ok e) :
    ∀ (dirs : List (List Component)) (st : RunState),
      ∃ st', process_dirs w max_depth st dirs = Except.ok st' := by
  intro dirs
  induction dirs with
  | nil => intro st; exact ⟨st, rfl⟩
  | cons d rest ih =>
      intro st
      rcases process_items_ok w o h (w.walkdir d 1 max_depth) st
        (hw d 1 max_depth) with ⟨st1, h1⟩
      rcases ih st1 with ⟨st2, h2⟩
      exact ⟨st2, by rw [process_dirs, h1]; exact h2⟩

/-! ### Concrete fixtures -/

/-- A well-formed vertex-shader entry whose filesystem operations all
succeed. -/
def vert_entry : Entry :=
  { path := [Component.normal "shaders", Component.normal "tri.vert"]
    is_dir := false
    ext := some "vert"
    read_result := Except.ok "vertex shader source"
    create_dir_result := Except.ok ()
    write_result := Except.ok () }

/-- A classified entry whose read fails with a path-less `io::Error`. -/
def bad_read_entry : Entry :=
  { vert_entry with
    path := [Component.normal "shaders", Component.normal "bad.vert"]
    read_result := Except.error ⟨IoErrorKind.other "perm", "permission denied"⟩ }

/-- A second classified entry, failing to read with the same cause as
`bad_read_entry` but at a different path. -/
def bad_read_entry2 : Entry :=
  { bad_read_entry with
    path := [Component.normal "shaders", Component.normal "other.vert"] }

/-- An entry with an unsupported extension. -/
def txt_entry : Entry :=
  { vert_entry with
    path := [Component.normal "shaders", Component.normal "notes.txt"]
    ext := some "txt" }

/-- A classified entry for which creating the output subdirectory fails
because it already exists. -/
def exists_dir_entry : Entry :=
  { vert_entry with
    create_dir_result := Except.error ⟨IoErrorKind.alreadyExists, "File exists"⟩ }

/-- A classified entry for which creating the output subdirectory fails
with a non-benign error. -/
def dir_fail_entry : Entry :=
  { vert_entry with
    create_dir_result := Except.error ⟨IoErrorKind.other "perm", "Permission denied"⟩ }

/-- A world in which everything succeeds and the traversal of any
directory yields exactly `vert_entry`. -/
def good_world : World :=
  { compiler_ok := true
    out_dir := some "target/debug/build/out"
    walkdir := fun _ _ _ => [WalkItem.ok vert_entry]
    compile := fun _ => Except.ok [3, 2, 35, 7] }

/-- A world whose traversal hits an error item before a perfectly good
shader entry. -/
def walk_error_world : World :=
  { good_world with
    walkdir := fun _ _ _ =>
      [WalkItem.err "walkdir: permission denied", WalkItem.ok vert_entry] }

/-- A world whose compiler rejects every source. -/
def compile_fail_world : World :=
  { good_world with compile := fun _ => Except.error "syntax error" }

/-- A single-root configuration searching `shaders` one level deep. -/
def demo_cfg : CompilationRun :=
  (CompilationRun.new [Component.normal "shaders"]).set_max_depth 1

/-- A consumer build-output `SPIR-V` directory holding one five-byte
artifact. -/
def odd_artifact_files : String → Option (List Nat) :=
  fun n => if n = "tri.spirv" then some [1, 2, 3, 4, 5] else none

/-! ### Claims -/

/-- Claim C1, counterexample: the filename derivation is not injective on
all pairs of distinct relative paths — the one-component path
`a__b.vert` and the two-component path `a/b.vert` differ in their normal
components yet derive the same output filename. -/
theorem C1_counterexample :
    normal_components [Component.normal "a__b.vert"]
        ≠ normal_components [Component.normal "a", Component.normal "b.vert"]
      ∧ shader_path_to_file_name [Component.normal "a__b.vert"]
        = shader_path_to_file_name [Component.normal "a", Component.normal "b.vert"] := by
  constructor
  · decide
  · rfl

/-- Claim C1, amended: the filename derivation is injective on relative
paths whose normal components are nonempty and contain no underscore —
for such paths, differing normal-component sequences yield distinct
output filenames. -/
theorem C1_theorem (p q : List Component)
    (hp : ∀ s ∈ normal_components p, s ≠ "" ∧ '_' ∉ s.data)
    (hq : ∀ s ∈ normal_components q, s ≠ "" ∧ '_' ∉ s.data)
    (hne : normal_components p ≠ normal_components q) :
    shader_path_to_file_name p ≠ shader_path_to_file_name q :=
  fun h => hne (shader_path_to_file_name_injective p q hp hq h)

/-- Claim C1, witness: the distinct relative paths `a/b.vert` and
`a/c.vert` derive distinct output filenames. -/
theorem C1_witness :
    shader_path_to_file_name [Component.normal "a", Component.normal "b.vert"]
      ≠ shader_path_to_file_name [Component.normal "a", Component.normal "c.vert"] :=
  C1_theorem [Component.normal "a", Component.normal "b.vert"]
    [Component.normal "a", Component.normal "c.vert"]
    (by decide) (by decide) (by decide)

/-- Claim C4: the filename derivation keeps exactly the normal path
components, emits the first bare, prefixes each subsequent one with the
literal `__`, and appends `.spirv`; `shaders/post/blur.comp` yields
exactly `shaders__post__blur.comp.spirv`, and root, current-directory,
parent-directory and prefix components are dropped. -/
theorem C4_theorem :
    (∀ path : List Component, shader_path_to_file_name path = spec_output_name path)
    ∧ shader_path_to_file_name
        [Component.normal "shaders", Component.normal "post", Component.normal "blur.comp"]
      = "shaders__post__blur.comp.spirv"
    ∧ shader_path_to_file_name
        [Component.drive "C:", Component.rootDir, Component.normal "shaders",
         Component.curDir, Component.parentDir, Component.normal "blur.comp"]
      = "shaders__blur.comp.spirv" :=
  ⟨shader_path_to_file_name_eq_spec, rfl, rfl⟩

/-- Claim C2, counterexample: a traversal error is not captured and
deferred — `entry.unwrap()` panics mid-run, and the classified shader
entry that follows the error item is never attempted (the outcome state
records no compiler call although the traversal's second item is a
classified `vert` file whose compilation would succeed). -/
theorem C2_counterexample :
    demo_cfg.run walk_error_world
      = RunOutcome.panicked RunState.init [] "walkdir: permission denied"
    ∧ walk_error_world.walkdir [Component.normal "shaders"] 1 1
      = [WalkItem.err "walkdir: permission denied", WalkItem.ok vert_entry]
    ∧ vert_entry.ext = some "vert" := ⟨rfl, rfl, rfl⟩

/-- Claim C2, amended: provided the compiler initializes, `OUT_DIR` is
set and the traversal yields no error items, every I/O or compile failure
is captured locally for the failing file and deferred to the end-of-run
report — the directory loop runs to completion, attempting every entry,
and the only abnormal termination is the final report with all recorded
failures.  (A traversal error item or an unset `OUT_DIR`, by contrast,
panics mid-run.) -/
theorem C2_theorem (cfg : CompilationRun) (w : World) (o : String)
    (h1 : w.compiler_ok = true) (h2 : w.out_dir = some o)
    (h3 : ∀ d min max, ∀ it ∈ w.walkdir d min max, ∃ e, it = WalkItem.ok e) :
    ∃ st, process_dirs w cfg.max_depth RunState.init cfg.directories = Except.ok st
      ∧ cfg.run w =
          (if st.errors.isEmpty then RunOutcome.completed st []
           else RunOutcome.panicked st (st.errors.map render_error)
                  (final_panic_msg st.errors.length)) := by
  rcases process_dirs_ok w o h2 cfg.max_depth h3 cfg.directories RunState.init
    with ⟨st, hst⟩
  refine ⟨st, hst, ?_⟩
  unfold CompilationRun.run
  rw [h1, if_pos rfl, hst]

/-- Claim C2, witness: in the all-successful world the run completes
normally with the one shader compiled and written. -/
theorem C2_witness :
    ∃ st, process_dirs good_world demo_cfg.max_depth RunState.init
            demo_cfg.directories = Except.ok st
      ∧ demo_cfg.run good_world =
          (if st.errors.isEmpty then RunOutcome.completed st []
           else RunOutcome.panicked st (st.errors.map render_error)
                  (final_panic_msg st.errors.length)) :=
  C2_theorem demo_cfg good_world "target/debug/build/out" rfl rfl
    (fun _ _ _ it hit => by
      rcases List.mem_singleton.mp hit with rfl
      exact ⟨vert_entry, rfl⟩)

/-- Claim C3: once every root and entry has been processed, a non-empty
error set makes the run print one diagnostic line per recorded failure —
I/O failures as `IO error: <cause>`, compile failures as
`Error compiling shader at "<path>": <diagnostic>`, so the printed count
equals the error-set size — and then panic with a message reporting the
total failure count, while an empty error set completes the run normally
with no diagnostics printed. -/
theorem C3_theorem (cfg : CompilationRun) (w : World) (st : RunState)
    (h1 : w.compiler_ok = true)
    (h2 : process_dirs w cfg.max_depth RunState.init cfg.directories = Except.ok st) :
    (st.errors ≠ [] →
       cfg.run w = RunOutcome.panicked st (st.errors.map render_error)
         (final_panic_msg st.errors.length)
       ∧ (st.errors.map render_error).length = st.errors.length)
    ∧ (st.errors = [] → cfg.run w = RunOutcome.completed st [])
    ∧ (∀ err : IoError,
        render_error (CompilationRunError.Io err) = "IO error: " ++ err.msg)
    ∧ (∀ f : ShaderCompileFail,
        render_error (CompilationRunError.CompileFail f)
          = "Error compiling shader at \"" ++ display f.path ++ "\": " ++ f.error) := by
  refine ⟨?_, ?_, fun _ => rfl, fun _ => rfl⟩
  · intro hne
    constructor
    · unfold CompilationRun.run
      rw [h1, if_pos rfl, h2]
      dsimp only
      rw [if_neg (by simp [List.isEmpty_iff, hne])]
    · exact List.length_map st.errors render_error
  · intro hnil
    unfold CompilationRun.run
    rw [h1, if_pos rfl, h2]
    dsimp only
    rw [if_pos (by simp [List.isEmpty_iff, hnil])]

/-- Claim C3, witness: with the compiler rejecting the one shader found,
the run prints exactly the one formatted compile diagnostic and panics
citing one error; symmetrically, the all-successful world completes with
nothing printed. -/
theorem C3_witness :
    demo_cfg.run compile_fail_world
      = RunOutcome.panicked
          ⟨[CompilationRunError.CompileFail ⟨vert_entry.path, "syntax error"⟩],
           [⟨"vertex shader source", ShaderKind.Vertex, "shaders/tri.vert", "main", none⟩], []⟩
          ["Error compiling shader at \"shaders/tri.vert\": syntax error"]
          (final_panic_msg 1)
    ∧ demo_cfg.run good_world
      = RunOutcome.completed
          ⟨[], [⟨"vertex shader source", ShaderKind.Vertex, "shaders/tri.vert", "main", none⟩],
           [("shaders__tri.vert.spirv", [3, 2, 35, 7])]⟩ [] := by
  constructor
  · exact ((C3_theorem demo_cfg compile_fail_world _ rfl rfl).1 (by decide)).1
  · exact (C3_theorem demo_cfg good_world _ rfl rfl).2.1 rfl

/-- Claim C5, counterexample: a length violation is not surfaced at the
consuming program's build time — the build of `include_shader!("tri")`
over a `SPIR-V` directory holding a five-byte artifact succeeds,
embedding the five bytes (`include_bytes!` reads the file, nothing
inspects the count), and the macro's fatal failure occurs only when the
expansion is evaluated at the consumer's run time. -/
theorem C5_counterexample :
    include_shader_build odd_artifact_files "tri" = Except.ok [1, 2, 3, 4, 5]
    ∧ include_shader "tri" [1, 2, 3, 4, 5]
      = Except.error
          "Shader tri contains a number of bytes which is not divisible by four." :=
  ⟨rfl, rfl⟩

/-- Claim C5, amended: the `include_shader!` consumer interface requires
the artifact's byte length to be a multiple of four — a fitting artifact
is reinterpreted as consecutive 4-byte words (flattening the words
returns the original bytes); a non-fitting artifact still passes the
consuming program's build, which embeds the file's bytes without
inspecting their count, and the violation fails fatally only when the
consuming program evaluates the expansion at its run time — in either
case not at shader-compile time: the run writes a successfully compiled
artifact of any length without recording an error. -/
theorem C5_theorem :
    (∀ (name : String) (bytes : List Nat), bytes.length % 4 = 0 →
       include_shader name bytes = Except.ok (chunk4 bytes)
       ∧ (chunk4 bytes).flatten = bytes
       ∧ ∀ c ∈ chunk4 bytes, c.length = 4)
    ∧ (∀ (files : String → Option (List Nat)) (name : String) (bytes : List Nat),
       files (name ++ ".spirv") = some bytes →
       include_shader_build files name = Except.ok bytes)
    ∧ (∀ (name : String) (bytes : List Nat), bytes.length % 4 ≠ 0 →
       include_shader name bytes
         = Except.error ("Shader " ++ name
             ++ " contains a number of bytes which is not divisible by four."))
    ∧ (∀ (w : World) (st : RunState) (e : Entry) (fx : String) (k : ShaderKind)
         (src : String) (art : List Nat) (o : String),
       e.is_dir = false → e.ext = some fx → shader_kind_of_ext fx = some k →
       e.read_result = Except.ok src →
       w.compile ⟨src, k, display e.path, "main", none⟩ = Except.ok art →
       w.out_dir = some o → e.create_dir_result = Except.ok () →
       e.write_result = Except.ok () →
       process_entry w st e = Except.ok { st with
         calls := st.calls ++ [⟨src, k, display e.path, "main", none⟩],
         writes := st.writes ++ [(shader_path_to_file_name e.path, art)] }) := by
  refine ⟨?_, ?_, ?_, ?_⟩
  · intro name bytes h
    rcases Nat.dvd_of_mod_eq_zero h with ⟨n, hn⟩
    have := chunk4_spec n bytes hn
    exact ⟨by simp [include_shader, h], this.1, this.2⟩
  · intro files name bytes h
    simp [include_shader_build, h]
  · intro name bytes h
    simp [include_shader, h]
  · intro w st e fx k src art o h1 h2 h3 h4 h5 h6 h7 h8
    simp [process_entry, h1, h2, h3, h4, h5, h6, h7, h8]

/-- Claim C5, witness: eight bytes become two words; a five-byte
artifact passes the consumer's build, is written by the run without any
recorded error, and panics only the expansion's run-time evaluation. -/
theorem C5_witness :
    include_shader "tri" [1, 2, 3, 4, 5, 6, 7, 8]
      = Except.ok [[1, 2, 3, 4], [5, 6, 7, 8]]
    ∧ include_shader_build odd_artifact_files "tri" = Except.ok [1, 2, 3, 4, 5]
    ∧ include_shader "tri" [1, 2, 3, 4, 5]
      = Except.error
          "Shader tri contains a number of bytes which is not divisible by four."
    ∧ process_entry
        { good_world with compile := fun _ => Except.ok [1, 2, 3, 4, 5] }
        RunState.init vert_entry
      = Except.ok
          ⟨[], [⟨"vertex shader source", ShaderKind.Vertex, "shaders/tri.vert", "main", none⟩],
           [("shaders__tri.vert.spirv", [1, 2, 3, 4, 5])]⟩ := by
  refine ⟨?_, ?_, ?_, ?_⟩
  · exact (C5_theorem.1 "tri" [1, 2, 3, 4, 5, 6, 7, 8] (by decide)).1
  · exact C5_theorem.2.1 odd_artifact_files "tri" [1, 2, 3, 4, 5] (by decide)
  · exact C5_theorem.2.2.1 "tri" [1, 2, 3, 4, 5] (by decide)
  · exact C5_theorem.2.2.2 _ RunState.init vert_entry "vert" ShaderKind.Vertex
      "vertex shader source" [1, 2, 3, 4, 5] "target/debug/build/out"
      rfl rfl rfl rfl rfl rfl rfl rfl

/-- Claim C6, counterexample: the I/O failure record written for a failed
read does not carry the originating path — two classified entries that
differ only in their paths and fail to read with the same underlying
cause leave byte-for-byte identical run states, so the record cannot
identify the failing file. -/
theorem C6_counterexample :
    bad_read_entry.path ≠ bad_read_entry2.path
    ∧ process_entry good_world RunState.init bad_read_entry
      = process_entry good_world RunState.init bad_read_entry2
    ∧ process_entry good_world RunState.init bad_read_entry
      = Except.ok
          ⟨[CompilationRunError.Io ⟨IoErrorKind.other "perm", "permission denied"⟩],
           [], []⟩ :=
  ⟨by decide, rfl, rfl⟩

/-- Claim C6, amended: when reading a classified file's contents fails,
the run records exactly one I/O failure record carrying the underlying
cause (the originating path is not part of the record), and then
continues with the next entry — the read failure does not abort the
run. -/
theorem C6_theorem (w : World) (st : RunState) (e : Entry)
    (fx : String) (k : ShaderKind) (err : IoError)
    (h1 : e.is_dir = false) (h2 : e.ext = some fx)
    (h3 : shader_kind_of_ext fx = some k)
    (h4 : e.read_result = Except.error err) :
    process_entry w st e
      = Except.ok { st with errors := st.errors ++ [CompilationRunError.Io err] } := by
  simp [process_entry, h1, h2, h3, h4]

/-- Claim C6, witness: the failed read of `shaders/bad.vert` appends the
one `Io` record and continues. -/
theorem C6_witness :
    process_entry good_world RunState.init bad_read_entry
      = Except.ok { RunState.init with
          errors := [CompilationRunError.Io
            ⟨IoErrorKind.other "perm", "permission denied"⟩] } :=
  C6_theorem good_world RunState.init bad_read_entry "vert" ShaderKind.Vertex
    ⟨IoErrorKind.other "perm", "permission denied"⟩ rfl rfl rfl rfl

/-- Whatever the loop body's outcome for a classified, readable entry —
`continue` or a panic — its state holds exactly one new compiler call,
with exactly the source's arguments. -/
theorem process_entry_calls (w : World) (st : RunState) (e : Entry)
    (fx : String) (k : ShaderKind) (src : String)
    (h1 : e.is_dir = false) (h2 : e.ext = some fx)
    (h3 : shader_kind_of_ext fx = some k)
    (h4 : e.read_result = Except.ok src) :
    ∀ r : Except (RunState × String) RunState, process_entry w st e = r →
      (match r with
       | Except.ok st' => st'.calls
       | Except.error (st', _) => st'.calls)
        = st.calls ++ [⟨src, k, display e.path, "main", none⟩] := by
  intro r hr
  simp only [process_entry, h1, h2, h3, h4, Bool.false_eq_true, if_false] at hr
  repeat' split at hr
  all_goals (subst hr; simp)

/-- Claim C7: for every classified file the external compiler is invoked
exactly once, with exactly the file's full text, the stage kind from the
extension table, the display form of the source path as the virtual
filename, the fixed entry-point name `main`, and no additional options —
whether the loop body then continues or panics. -/
theorem C7_theorem (w : World) (st : RunState) (e : Entry)
    (fx : String) (k : ShaderKind) (src : String)
    (h1 : e.is_dir = false) (h2 : e.ext = some fx)
    (h3 : shader_kind_of_ext fx = some k)
    (h4 : e.read_result = Except.ok src) :
    (∀ st', process_entry w st e = Except.ok st' →
       st'.calls = st.calls ++ [⟨src, k, display e.path, "main", none⟩])
    ∧ (∀ st' msg, process_entry w st e = Except.error (st', msg) →
       st'.calls = st.calls ++ [⟨src, k, display e.path, "main", none⟩]) :=
  ⟨fun st' h => process_entry_calls w st e fx k src h1 h2 h3 h4 (Except.ok st') h,
   fun st' msg h =>
     process_entry_calls w st e fx k src h1 h2 h3 h4 (Except.error (st', msg)) h⟩

/-- Claim C7, witness: the one classified entry of the all-successful
world triggers exactly the call
`("vertex shader source", Vertex, "shaders/tri.vert", "main", none)`. -/
theorem C7_witness :
    RunState.init.calls
      ++ [⟨"vertex shader source", ShaderKind.Vertex, "shaders/tri.vert", "main", none⟩]
      = [⟨"vertex shader source", ShaderKind.Vertex, "shaders/tri.vert", "main", none⟩]
    ∧ ∀ st', process_entry good_world RunState.init vert_entry = Except.ok st' →
        st'.calls = RunState.init.calls
          ++ [⟨"vertex shader source", ShaderKind.Vertex, "shaders/tri.vert", "main", none⟩] :=
  ⟨rfl,
   (C7_theorem good_world RunState.init vert_entry "vert" ShaderKind.Vertex
     "vertex shader source" rfl rfl rfl rfl).1⟩

/-- Claim C8: the extension-to-stage-kind lookup is a pure total function
on extension strings — the eighteen supported extensions map, in source
order, to exactly the listed stage kinds, every other extension yields
`none` (skip), and an entry whose extension looks up to `none` is ignored
silently: the loop body leaves the run state untouched and records no
error. -/
theorem C8_theorem :
    supported_exts.map shader_kind_of_ext
      = [some ShaderKind.Vertex, some ShaderKind.Vertex,
         some ShaderKind.Fragment, some ShaderKind.Fragment,
         some ShaderKind.Geometry, some ShaderKind.Geometry,
         some ShaderKind.Compute, some ShaderKind.TessControl,
         some ShaderKind.TessEvaluation, some ShaderKind.RayGeneration,
         some ShaderKind.Intersection, some ShaderKind.AnyHit,
         some ShaderKind.ClosestHit, some ShaderKind.Miss,
         some ShaderKind.Callable, some ShaderKind.Mesh,
         some ShaderKind.Task, some ShaderKind.InferFromSource]
    ∧ (∀ ext, ext ∉ supported_exts → shader_kind_of_ext ext = none)
    ∧ (∀ (w : World) (st : RunState) (e : Entry) (fx : String),
        e.is_dir = false → e.ext = some fx → shader_kind_of_ext fx = none →
        process_entry w st e = Except.ok st) := by
  refine ⟨by decide, ?_, ?_⟩
  · intro ext hext
    unfold shader_kind_of_ext
    split
    all_goals simp_all [supported_exts]
  · intro w st e fx h1 h2 h3
    simp [process_entry, h1, h2, h3]

/-- Claim C8, witness: `txt` is unsupported, so a `.txt` entry is skipped
with the run state unchanged. -/
theorem C8_witness :
    shader_kind_of_ext "txt" = none
    ∧ process_entry good_world RunState.init txt_entry = Except.ok RunState.init :=
  ⟨C8_theorem.2.1 "txt" (by decide),
   C8_theorem.2.2 good_world RunState.init txt_entry "txt" rfl rfl
     (C8_theorem.2.1 "txt" (by decide))⟩

/-- Claim C9: when creating the `SPIR-V` output subdirectory fails with
`AlreadyExists`, the loop body behaves exactly as if the creation had
succeeded (no error recorded); any other creation failure is recorded as
an I/O failure that aborts only the current file — the body `continue`s
(returns `ok`) with no artifact written. -/
theorem C9_theorem (w : World) (st : RunState) (e : Entry)
    (fx : String) (k : ShaderKind) (src : String) (o : String) (err : IoError)
    (h1 : e.is_dir = false) (h2 : e.ext = some fx)
    (h3 : shader_kind_of_ext fx = some k)
    (h4 : e.read_result = Except.ok src) (hw : w.out_dir = some o)
    (h5 : e.create_dir_result = Except.error err) :
    (err.kind = IoErrorKind.alreadyExists →
       process_entry w st e
         = process_entry w st { e with create_dir_result := Except.ok () })
    ∧ (∀ s, err.kind = IoErrorKind.other s →
       ∀ art, w.compile ⟨src, k, display e.path, "main", none⟩ = Except.ok art →
       process_entry w st e = Except.ok { st with
         calls := st.calls ++ [⟨src, k, display e.path, "main", none⟩],
         errors := st.errors ++ [CompilationRunError.Io err] }) := by
  constructor
  · intro hk
    simp [process_entry, h1, h2, h3, h4, h5, hw, hk]
  · intro s hk art hc
    simp [process_entry, h1, h2, h3, h4, h5, hw, hk, hc]

/-- Claim C9, witness: an `AlreadyExists` creation failure leaves the
outcome identical to a successful creation, while a permission failure
records the one `Io` error, performs no write, and continues. -/
theorem C9_witness :
    process_entry good_world RunState.init exists_dir_entry
      = process_entry good_world RunState.init
          { exists_dir_entry with create_dir_result := Except.ok () }
    ∧ process_entry good_world RunState.init dir_fail_entry
      = Except.ok { RunState.init with
          calls := [⟨"vertex shader source", ShaderKind.Vertex, "shaders/tri.vert", "main", none⟩],
          errors := [CompilationRunError.Io ⟨IoErrorKind.other "perm", "Permission denied"⟩] } :=
  ⟨(C9_theorem good_world RunState.init exists_dir_entry "vert" ShaderKind.Vertex
      "vertex shader source" "target/debug/build/out"
      ⟨IoErrorKind.alreadyExists, "File exists"⟩ rfl rfl rfl rfl rfl rfl).1 rfl,
   (C9_theorem good_world RunState.init dir_fail_entry "vert" ShaderKind.Vertex
      "vertex shader source" "target/debug/build/out"
      ⟨IoErrorKind.other "perm", "Permission denied"⟩ rfl rfl rfl rfl rfl rfl).2
     "perm" rfl [3, 2, 35, 7] rfl⟩

end ShadercAcp
